import Mathlib

/-!
Shallow embedding of sigshell.c (vocarista/sigshell), the foreground
execution and signal/job-control core of a small interactive shell.

Pure string functions are translated directly; the effectful parts of
execute_command and init_shell are modelled as event traces over an
explicit OS-visible event type, with interpreters for the terminal's
foreground-process-group state and for a process's signal-disposition
table.  The parent branch and the child branch of the fork are two
separate trace-producing functions, since after fork they are two
distinct processes.
-/

namespace Sigshell

/-- Signal numbers as on Linux (signal.h). -/
def SIGINT : Nat := 2

def SIGQUIT : Nat := 3

def SIGTSTP : Nat := 20

def SIGTTIN : Nat := 21

def SIGTTOU : Nat := 22

/-- Signal disposition a process can install for a signal: default action
(SIG_DFL), ignore (SIG_IGN), or a user handler function (the shell installs
sigint_handler for SIGINT). -/
inductive Disposition
  | dfl
  | ign
  | handler
  deriving DecidableEq, Repr

/-- OS-visible events issued by the shell code, in program order.
Informational stdout/stderr messages are recorded as print events with a tag. -/
inductive Event
  | setpgidSelf
  | sigact (sig : Nat) (disp : Disposition)
  | tcsetpgrp (pgid : Nat)
  | waitpid (pid : Nat) (untraced : Bool)
  | execvp (prog : String)
  | exitWith (code : Nat)
  | print (tag : String)
  deriving DecidableEq, Repr

/-- should_protect_sigint, sigshell.c lines 41-50: the hardcoded protected
set, scanned with strcmp until a match. -/
def protected_cmds : List String := ["sleep", "critical"]

/-- should_protect_sigint returns 1 iff cmd strcmp-equals some entry. -/
def should_protect_sigint (cmd : String) : Bool :=
  protected_cmds.any (fun p => cmd == p)

/-- Delimiter set of the strtok calls in parse_command: space, tab, newline. -/
def is_delim (c : Char) : Bool := c == ' ' || c == '\t' || c == '\n'

/-- strtok-style tokenization over the characters of the command buffer:
runs of delimiters separate tokens and empty tokens never arise.  acc holds
the characters of the token being built, in reverse. -/
def tokens_aux (s : List Char) (acc : List Char) : List (List Char) :=
  match s with
  | [] => if acc.isEmpty then [] else [acc.reverse]
  | c :: cs =>
    if is_delim c then
      if acc.isEmpty then tokens_aux cs [] else acc.reverse :: tokens_aux cs []
    else tokens_aux cs (c :: acc)

/-- parse_command, sigshell.c lines 27-38: strtok over delimiters space,
tab, newline (which skips empty tokens), collecting at most
MAX_ARGS - 1 = 63 arguments. -/
def parse_command (cmd : String) : List String :=
  ((tokens_aux cmd.data []).map String.mk).take 63

/-- handle_builtin, sigshell.c lines 144-184: 2 means exit the shell,
1 means handled (including a NULL args[0]), 0 means not a built-in. -/
def handle_builtin (args : List String) : Nat :=
  match args with
  | [] => 1
  | a0 :: _ =>
    if a0 == "exit" then 2
    else if a0 == "help" then 1
    else if a0 == "cd" then 1
    else 0

/-- Linux encoding of the status word that waitpid fills in, as inspected
by the C macros in sys/wait.h.  WIFSTOPPED: low byte is 0x7f. -/
def WIFSTOPPED (s : Nat) : Bool := s % 256 == 0x7f

/-- WIFEXITED: low 7 bits are zero. -/
def WIFEXITED (s : Nat) : Bool := s % 128 == 0

/-- WIFSIGNALED: the low 7 bits are neither 0 (exit) nor 0x7f (stop). -/
def WIFSIGNALED (s : Nat) : Bool := 0 < s % 128 && s % 128 < 0x7f

/-- WEXITSTATUS: the second byte of the status word. -/
def WEXITSTATUS (s : Nat) : Nat := s / 256 % 256

/-- WTERMSIG: the low 7 bits of the status word. -/
def WTERMSIG (s : Nat) : Nat := s % 128

/-- Status word the kernel reports for a child that exited normally with
the given code: code in the second byte, low 7 bits zero. -/
def encodeExit (code : Nat) : Nat := code % 256 * 256

/-- Status word for a child terminated by signal sig (1 <= sig <= 126):
the signal number itself in the low 7 bits. -/
def encodeSignaled (sig : Nat) : Nat := sig

/-- Status word for a child stopped by signal sig: low byte 0x7f, the
stopping signal in the second byte. -/
def encodeStopped (sig : Nat) : Nat := sig % 256 * 256 + 0x7f

/-- Result of the single waitpid call: either a status word (waitpid
returned the pid, > 0) or an errno (waitpid returned -1). -/
inductive WaitRes
  | ok (status : Nat)
  | err (errno : Nat)
  deriving DecidableEq, Repr

/-- Classification of the wait outcome, as the data model of the spec
names it. -/
inductive WaitOutcome
  | Exited (code : Nat)
  | StoppedBySignal
  | TerminatedBySignal (sig : Nat)
  | WaitFailed (errno : Nat)
  deriving DecidableEq, Repr

/-- Classification branch taken by the parent in execute_command,
sigshell.c lines 119-134: WIFSTOPPED first, then WIFEXITED, then
WIFSIGNALED; none reports nothing, and result -1 is the waitpid-failed
branch.  Returns none when no branch classifies the status. -/
def classify_wait : WaitRes → Option WaitOutcome
  | WaitRes.ok s =>
    if WIFSTOPPED s then some WaitOutcome.StoppedBySignal
    else if WIFEXITED s then some (WaitOutcome.Exited (WEXITSTATUS s))
    else if WIFSIGNALED s then some (WaitOutcome.TerminatedBySignal (WTERMSIG s))
    else none
  | WaitRes.err e => some (WaitOutcome.WaitFailed e)

/-- Messages the parent prints for each classification branch,
sigshell.c lines 119-134, in the source's branch order. -/
def report_events : WaitRes → List Event
  | WaitRes.ok s =>
    if WIFSTOPPED s then [Event.print "suspended", Event.print "resume hint"]
    else if WIFEXITED s then
      (if WEXITSTATUS s != 0 then [Event.print "nonzero exit status"] else [])
    else if WIFSIGNALED s then [Event.print "terminated by signal"]
    else []
  | WaitRes.err _ => [Event.print "waitpid failed"]

/-- Parent branch of execute_command after a successful fork, sigshell.c
lines 102-140: optional protected notice, terminal grant to the child
process group when stdin is a tty, exactly one waitpid with WUNTRACED,
the report for the outcome, then terminal reclaim when stdin is a tty. -/
def parent_trace (isTty : Bool) (shell_pgid : Nat) (protect : Bool)
    (pid : Nat) (wres : WaitRes) : List Event :=
  (if protect then [Event.print "protected notice"] else [])
    ++ (if isTty then [Event.tcsetpgrp pid] else [])
    ++ [Event.waitpid pid true]
    ++ report_events wres
    ++ (if isTty then [Event.tcsetpgrp shell_pgid] else [])

/-- Child branch of execute_command, sigshell.c lines 70-101: new process
group for itself, SIGTSTP back to default, SIGINT ignored or defaulted by
the protect flag, then execvp; when execvp fails the child reports and
exits with status 1.  execOk records whether the program image could be
located and executed. -/
def child_trace (protect : Bool) (prog : String) (execOk : Bool) : List Event :=
  [Event.setpgidSelf, Event.sigact SIGTSTP Disposition.dfl]
    ++ (if protect then [Event.sigact SIGINT Disposition.ign, Event.print "child ignores sigint"]
        else [Event.sigact SIGINT Disposition.dfl])
    ++ [Event.execvp prog]
    ++ (if execOk then [] else [Event.print "exec failed", Event.exitWith 1])

/-- Result of one execute_command call as seen by the caller. -/
inductive LaunchResult
  | forkFailed
  | completed (outcome : Option WaitOutcome)
  deriving DecidableEq, Repr

/-- execute_command as run in the shell's own process, sigshell.c lines
53-141: fork failure prints and returns with nothing else done; otherwise
the parent branch runs (the child branch runs in the child process,
modelled by child_trace). forkRes is none when fork returned < 0, some pid
when it returned the child pid to the parent. -/
def execute_command (isTty : Bool) (shell_pgid : Nat) (protect : Bool)
    (forkRes : Option Nat) (wres : WaitRes) : List Event × LaunchResult :=
  match forkRes with
  | none => ([Event.print "fork failed"], LaunchResult.forkFailed)
  | some pid =>
    (parent_trace isTty shell_pgid protect pid wres,
     LaunchResult.completed (classify_wait wres))

/-- init_shell, sigshell.c lines 187-211: when stdin is a tty, install the
SIGINT handler, ignore SIGQUIT, SIGTSTP, SIGTTIN, SIGTTOU, move into its
own process group, grab the terminal, and save terminal attributes;
otherwise do nothing.  (The foreground-handshake loop of lines 191-193 is
a no-op on the modelled state once the shell is foreground.) -/
def init_shell_trace (isTty : Bool) (shell_pgid : Nat) : List Event :=
  if isTty then
    [Event.sigact SIGINT Disposition.handler,
     Event.sigact SIGQUIT Disposition.ign,
     Event.sigact SIGTSTP Disposition.ign,
     Event.sigact SIGTTIN Disposition.ign,
     Event.sigact SIGTTOU Disposition.ign,
     Event.setpgidSelf,
     Event.tcsetpgrp shell_pgid,
     Event.print "tcgetattr save"]
  else []

/-- The terminal's job-control state: its foreground process group. -/
structure TermState where
  fgPgrp : Nat
  deriving DecidableEq, Repr

/-- Effect of one event on the terminal state: only tcsetpgrp changes the
foreground process group. -/
def apply_event (st : TermState) : Event → TermState
  | Event.tcsetpgrp p => { st with fgPgrp := p }
  | _ => st

/-- Terminal state after a trace runs. -/
def run_trace (es : List Event) (st : TermState) : TermState :=
  es.foldl apply_event st

/-- Signal-disposition table of a process after a trace runs in it,
starting from table d: each sigact event overwrites one entry. -/
def disp_after (es : List Event) (d : Nat → Disposition) : Nat → Disposition :=
  es.foldl
    (fun acc e =>
      match e with
      | Event.sigact s h => fun x => if x = s then h else acc x
      | _ => acc) d

/-- A trace that performs no signal-disposition change. -/
def no_sigact (es : List Event) : Bool :=
  es.all (fun e => match e with | Event.sigact _ _ => false | _ => true)

/-- Number of waitpid calls a trace issues. -/
def count_waits (es : List Event) : Nat :=
  es.countP (fun e => match e with | Event.waitpid _ _ => true | _ => false)

/-- Terminal-reclaim step of execute_command, sigshell.c lines 136-139:
outside a tty a no-op, otherwise set the terminal's foreground process
group to the shell's. -/
def reclaim_foreground (isTty : Bool) (shell_pgid : Nat) (st : TermState) : TermState :=
  if isTty then { st with fgPgrp := shell_pgid } else st

/-- Action one iteration of the main prompt loop takes for a line,
sigshell.c lines 228-270. -/
inductive LoopAction
  | continueLoop
  | exitShell
  | execute (args : List String) (protect : Bool)
  deriving DecidableEq, Repr

/-- Truncation at the first newline, sigshell.c line 244. -/
def strip_newline (s : String) : String :=
  String.mk (s.data.takeWhile (fun c => c != '\n'))

/-- One iteration of the main loop on a read line, sigshell.c lines
242-269: strip the newline, skip empty lines, parse, skip when no
arguments, dispatch built-ins (2 exits, 1 is handled), and only otherwise
call execute_command with the protection decision for args[0]. -/
def loop_step (line : String) : LoopAction :=
  let cmd := strip_newline line
  if cmd.length = 0 then LoopAction.continueLoop
  else
    match parse_command cmd with
    | [] => LoopAction.continueLoop
    | a0 :: rest =>
      match handle_builtin (a0 :: rest) with
      | 2 => LoopAction.exitShell
      | 1 => LoopAction.continueLoop
      | _ => LoopAction.execute (a0 :: rest) (should_protect_sigint a0)

/-! Helper lemmas about the trace interpreters. -/

/-- Dispositions after a concatenated trace: run the two parts in order. -/
theorem disp_after_append (a b : List Event) (d : Nat → Disposition) :
    disp_after (a ++ b) d = disp_after b (disp_after a d) := by
  simp [disp_after, List.foldl_append]

/-- A trace with no sigact event leaves every disposition unchanged. -/
theorem disp_after_no_sigact (es : List Event) (h : no_sigact es = true)
    (d : Nat → Disposition) (x : Nat) : disp_after es d x = d x := by
  induction es generalizing d with
  | nil => rfl
  | cons e tl ih =>
    have h2 : no_sigact tl = true := by
      simp [no_sigact, List.all_cons] at h
      simpa [no_sigact] using h.2
    cases e with
    | sigact s hd => simp [no_sigact, List.all_cons] at h
    | setpgidSelf => exact ih h2 d
    | tcsetpgrp p => exact ih h2 d
    | waitpid p u => exact ih h2 d
    | execvp p => exact ih h2 d
    | exitWith c => exact ih h2 d
    | print t => exact ih h2 d

/-- Joining sigact-free traces leaves every disposition unchanged. -/
theorem disp_after_join_no_sigact (ts : List (List Event))
    (h : ∀ t ∈ ts, no_sigact t = true) (d : Nat → Disposition) (x : Nat) :
    disp_after ts.flatten d x = d x := by
  induction ts generalizing d with
  | nil => rfl
  | cons t tl ih =>
    rw [List.flatten_cons, disp_after_append]
    rw [ih (fun u hu => h u (List.mem_cons_of_mem t hu)) (disp_after t d)]
    exact disp_after_no_sigact t (h t (List.mem_cons_self t tl)) d x

/-- The branch report of the wait outcome issues no waitpid call. -/
theorem count_waits_report (w : WaitRes) : count_waits (report_events w) = 0 := by
  cases w with
  | ok s =>
    simp only [report_events]
    split_ifs <;> rfl
  | err e => rfl

/-- The branch report of the wait outcome changes no disposition. -/
theorem no_sigact_report (w : WaitRes) : no_sigact (report_events w) = true := by
  cases w with
  | ok s =>
    simp only [report_events]
    split_ifs <;> rfl
  | err e => rfl

/-- C5: should_protect_sigint returns true exactly when the command name
is string-equal to one of the two hardcoded entries, sleep and critical;
the comparison is exact string equality, so it is case-sensitive and does
no substring or wildcard matching, and the function is pure. -/
theorem should_protect_sigint_iff (cmd : String) :
    should_protect_sigint cmd = true ↔ cmd = "sleep" ∨ cmd = "critical" := by
  simp [should_protect_sigint, protected_cmds]

/-- C9: the terminal-reclaim step is idempotent: when the terminal's
foreground process group already equals the shell's process group,
reclaim_foreground leaves the terminal state exactly as it was. -/
theorem reclaim_foreground_idempotent (isTty : Bool) (sh : Nat)
    (st : TermState) (h : st.fgPgrp = sh) :
    reclaim_foreground isTty sh st = st := by
  cases st
  cases h
  cases isTty <;> simp [reclaim_foreground]

/-- Witness for reclaim_foreground_idempotent at a concrete state. -/
theorem reclaim_foreground_idempotent_witness :
    reclaim_foreground true 5 ⟨5⟩ = ⟨5⟩ :=
  reclaim_foreground_idempotent true 5 ⟨5⟩ rfl

/-- C1: for every foreground job run on a terminal, whatever the wait
outcome (exited, terminated by signal, stopped, or waitpid failure), the
parent's trace ends by setting the terminal's foreground process group
back to the shell's process group, so the terminal state when control
returns to the prompt loop has the shell's group in the foreground. -/
theorem foreground_always_reclaimed (sh pid : Nat) (protect : Bool)
    (wres : WaitRes) (st : TermState) :
    (run_trace (parent_trace true sh protect pid wres) st).fgPgrp = sh
    ∧ (parent_trace true sh protect pid wres).getLast?
        = some (Event.tcsetpgrp sh) := by
  constructor
  · simp [run_trace, parent_trace, List.foldl_append, apply_event]
  · simp [parent_trace]
    rw [← List.cons_append, List.getLast?_concat]

/-- C7: when fork fails, execute_command reports the failure and returns
ForkFailed having done nothing else: its trace issues no waitpid, no
tcsetpgrp and no disposition change, and the terminal state is untouched. -/
theorem fork_failed_no_action (isTty : Bool) (sh : Nat) (protect : Bool)
    (wres : WaitRes) (st : TermState) :
    execute_command isTty sh protect none wres
        = ([Event.print "fork failed"], LaunchResult.forkFailed)
    ∧ count_waits (execute_command isTty sh protect none wres).1 = 0
    ∧ (∀ p, Event.tcsetpgrp p ∉ (execute_command isTty sh protect none wres).1)
    ∧ no_sigact (execute_command isTty sh protect none wres).1 = true
    ∧ run_trace (execute_command isTty sh protect none wres).1 st = st := by
  refine ⟨rfl, rfl, ?_, rfl, rfl⟩
  intro p
  simp [execute_command]

/-- C2: the parent issues exactly one waitpid call per job, with the
WUNTRACED flag so stop events are reported, and the classification maps a
normal exit with code N in [0,255] to Exited N, termination by a signal S
(a valid signal number fits the low 7 bits) to TerminatedBySignal S, a
stop event to StoppedBySignal, and a waitpid failure to WaitFailed errno,
which is distinct from every success variant. -/
theorem wait_classifier_correct :
    (∀ isTty sh protect pid wres,
        count_waits (parent_trace isTty sh protect pid wres) = 1
        ∧ Event.waitpid pid true ∈ parent_trace isTty sh protect pid wres)
    ∧ (∀ code, code ≤ 255 →
        classify_wait (WaitRes.ok (encodeExit code))
          = some (WaitOutcome.Exited code))
    ∧ (∀ sig, 0 < sig → sig < 127 →
        classify_wait (WaitRes.ok (encodeSignaled sig))
          = some (WaitOutcome.TerminatedBySignal sig))
    ∧ (∀ sig, classify_wait (WaitRes.ok (encodeStopped sig))
          = some WaitOutcome.StoppedBySignal)
    ∧ (∀ e, classify_wait (WaitRes.err e) = some (WaitOutcome.WaitFailed e)
        ∧ (∀ c, WaitOutcome.WaitFailed e ≠ WaitOutcome.Exited c)
        ∧ WaitOutcome.WaitFailed e ≠ WaitOutcome.StoppedBySignal) := by
  refine ⟨?_, ?_, ?_, ?_, ?_⟩
  · intro isTty sh protect pid wres
    constructor
    · have hrep := count_waits_report wres
      cases isTty <;> cases protect <;>
        simp [parent_trace, count_waits, List.countP_append] <;>
        simpa [count_waits] using hrep
    · cases isTty <;> cases protect <;> simp [parent_trace]
  · intro code h
    have h1 : code % 256 = code := Nat.mod_eq_of_lt (by omega)
    have h2 : code * 256 % 256 = 0 := by omega
    have h3 : code * 256 % 128 = 0 := by omega
    have h4 : code * 256 / 256 = code := by omega
    simp [classify_wait, WIFSTOPPED, WIFEXITED, WEXITSTATUS, encodeExit,
      h1, h2, h3, h4]
  · intro sig h0 h127
    have h1 : sig % 256 = sig := Nat.mod_eq_of_lt (by omega)
    have h2 : sig % 128 = sig := Nat.mod_eq_of_lt (by omega)
    simp [classify_wait, WIFSTOPPED, WIFEXITED, WIFSIGNALED, WTERMSIG,
      encodeSignaled, h1, h2]
    rw [if_neg (by omega), if_neg (by omega), if_pos ⟨h0, h127⟩]
  · intro sig
    have h1 : (sig % 256 * 256 + 127) % 256 = 127 := by omega
    simp [classify_wait, WIFSTOPPED, encodeStopped, h1]
  · intro e
    exact ⟨rfl, fun c => by simp, by simp⟩

/-- Witness for wait_classifier_correct at concrete statuses. -/
theorem wait_classifier_correct_witness :
    classify_wait (WaitRes.ok (encodeExit 7)) = some (WaitOutcome.Exited 7)
    ∧ classify_wait (WaitRes.ok (encodeSignaled 9))
        = some (WaitOutcome.TerminatedBySignal 9) :=
  ⟨wait_classifier_correct.2.1 7 (by decide),
   wait_classifier_correct.2.2.1 9 (by decide) (by decide)⟩

/-- C3: in the launched child, SIGINT ends up ignored exactly when the
protect flag is set and at default action otherwise, and SIGINT is the
only signal whose resulting disposition depends on protect: at every
other signal number the child's disposition table is identical for
protect = true and protect = false. -/
theorem child_sigint_policy (protect : Bool) (prog : String) (execOk : Bool)
    (d : Nat → Disposition) :
    disp_after (child_trace protect prog execOk) d SIGINT
        = (if protect then Disposition.ign else Disposition.dfl)
    ∧ (∀ s, s ≠ SIGINT →
        disp_after (child_trace true prog execOk) d s
          = disp_after (child_trace false prog execOk) d s) := by
  constructor
  · cases protect <;> cases execOk <;>
      simp [child_trace, disp_after, SIGINT, SIGTSTP]
  · intro s hs
    cases execOk <;>
      simp [child_trace, disp_after, SIGINT, SIGTSTP, hs] <;>
      simp [SIGINT] at hs <;> simp [hs]

/-- Witness for child_sigint_policy: protected child ignores SIGINT, and
SIGQUIT is unaffected by the protect flag. -/
theorem child_sigint_policy_witness :
    disp_after (child_trace true "sleep" true)
        (fun _ => Disposition.handler) SIGINT = Disposition.ign
    ∧ disp_after (child_trace true "sleep" true)
        (fun _ => Disposition.handler) SIGQUIT
      = disp_after (child_trace false "sleep" true)
        (fun _ => Disposition.handler) SIGQUIT := by
  constructor
  · have h := (child_sigint_policy true "sleep" true
      (fun _ => Disposition.handler)).1
    simpa using h
  · exact (child_sigint_policy true "sleep" true
      (fun _ => Disposition.handler)).2 SIGQUIT (by decide)

/-- C4: in the launched child, the SIGTSTP disposition is set back to
default action regardless of protect, and this reset (the trace's second
event) happens before the execvp that replaces the program image; so the
stop policy is independent of the interrupt policy. -/
theorem child_sigtstp_default (protect : Bool) (prog : String)
    (execOk : Bool) (d : Nat → Disposition) :
    disp_after (child_trace protect prog execOk) d SIGTSTP = Disposition.dfl
    ∧ ((child_trace protect prog execOk).drop 1).head?
        = some (Event.sigact SIGTSTP Disposition.dfl)
    ∧ (∃ j, 1 < j ∧ ((child_trace protect prog execOk).drop j).head?
        = some (Event.execvp prog)) := by
  refine ⟨?_, ?_, ?_⟩
  · cases protect <;> cases execOk <;>
      simp [child_trace, disp_after, SIGINT, SIGTSTP]
  · cases protect <;> rfl
  · cases protect with
    | false => exact ⟨3, by omega, by cases execOk <;> rfl⟩
    | true => exact ⟨4, by omega, by cases execOk <;> rfl⟩

/-- C6: when the program image cannot be executed, the child's final act
is to exit with status 1, and the parent, classifying the corresponding
wait status, observes Exited 1 as a completed launch, not a launch
error. -/
theorem exec_failure_exits_one (protect : Bool) (prog : String)
    (isTty : Bool) (sh pid : Nat) :
    (child_trace protect prog false).getLast? = some (Event.exitWith 1)
    ∧ execute_command isTty sh protect (some pid) (WaitRes.ok (encodeExit 1))
        = (parent_trace isTty sh protect pid (WaitRes.ok (encodeExit 1)),
           LaunchResult.completed (some (WaitOutcome.Exited 1))) := by
  constructor
  · cases protect <;> rfl
  · rfl

/-- C8 counterexample: init_shell guards all of its signal setup behind
the interactivity check, so in a session whose standard input is not a
terminal the SIGQUIT disposition is not set to ignore during
initialization — it stays at whatever it was (here default action). -/
theorem init_shell_nontty_no_ignore :
    disp_after (init_shell_trace false 100) (fun _ => Disposition.dfl) SIGQUIT
      ≠ Disposition.ign := by
  decide

/-- C8 amended: when standard input is a terminal, init_shell sets the
quit, stop, and two terminal-background-I/O dispositions to ignore during
initialization, and they stay ignore for the whole session: every
execute_command trace run in the shell's own context performs no
disposition change, so after initialization followed by any such traces
the four dispositions are still ignore. -/
theorem shell_ignores_job_signals (sh : Nat) (d : Nat → Disposition)
    (ts : List (List Event)) (hts : ∀ t ∈ ts, no_sigact t = true) :
    (∀ sig, sig ∈ [SIGQUIT, SIGTSTP, SIGTTIN, SIGTTOU] →
      disp_after (init_shell_trace true sh ++ ts.flatten) d sig
        = Disposition.ign)
    ∧ (∀ isTty sh2 protect forkRes wres,
        no_sigact (execute_command isTty sh2 protect forkRes wres).1 = true) := by
  constructor
  · intro sig hsig
    rw [disp_after_append, disp_after_join_no_sigact ts hts]
    fin_cases hsig <;> rfl
  · intro isTty sh2 protect forkRes wres
    cases forkRes with
    | none => rfl
    | some pid =>
      have hrep := no_sigact_report wres
      cases isTty <;> cases protect <;>
        simp [execute_command, parent_trace, no_sigact, List.all_append] <;>
        simpa [no_sigact] using hrep

/-- Witness for shell_ignores_job_signals: after initialization and one
sigact-free trace, SIGQUIT is still ignored in the shell. -/
theorem shell_ignores_job_signals_witness :
    disp_after (init_shell_trace true 100 ++ [[Event.print "x"]].flatten)
      (fun _ => Disposition.dfl) SIGQUIT = Disposition.ign :=
  (shell_ignores_job_signals 100 (fun _ => Disposition.dfl)
    [[Event.print "x"]] (by decide)).1 SIGQUIT (by decide)

/-- C10: the prompt loop never hands the core an empty argument vector:
the built-in dispatcher reports a NULL first argument as already handled,
and every line whose loop action is to execute an external command parses
to a non-empty argument list (so args[0] is present). -/
theorem core_never_gets_empty_args :
    handle_builtin [] = 1
    ∧ (∀ line args protect,
        loop_step line = LoopAction.execute args protect → args ≠ []) := by
  refine ⟨rfl, ?_⟩
  intro line args protect h
  unfold loop_step at h
  dsimp only at h
  split at h
  · exact absurd h (by simp)
  · split at h
    · exact absurd h (by simp)
    · split at h
      · exact absurd h (by simp)
      · exact absurd h (by simp)
      · rename_i a0 rest _ _ _
        cases h
        simp

/-- Witness for core_never_gets_empty_args on a concrete line. -/
theorem core_never_gets_empty_args_witness :
    loop_step "ls -la\n" = LoopAction.execute ["ls", "-la"] false
    ∧ (["ls", "-la"] : List String) ≠ [] :=
  ⟨by decide,
   core_never_gets_empty_args.2 "ls -la\n" ["ls", "-la"] false (by decide)⟩

end Sigshell
